import Mathlib

/-!
Shallow embedding of `src/staticfiles/js/app-new.a4d3317f0f88.js`, a
client-side DOM script for a marketing/profile website, together with
theorems about its documented behaviour.

Conventions of the embedding:
* DOM element lookups that may fail (`document.querySelector`) are
  `Option`-valued; JS code that dereferences a possibly-`null` element
  without a guard is embedded as an `Except String`-valued function whose
  `.error` case is the thrown `TypeError`.
* Numeric DOM quantities (`scrollY`, `offsetHeight`, parsed rating values)
  are rationals `ℚ`; `scrollHeight` is a natural number as in the DOM.
* `setTimeout` scheduling is embedded as an explicit discrete-event timer
  queue (`runUntil`), fired in time order with ties broken by scheduling
  order, as in the browser event loop.
-/

namespace AppNew

/-! ### Rating stars (`initRatingStars`, source lines 470-488)

The JS reads `parseFloat(ratingElement.querySelector('.rating-value').textContent) || 0`
and then builds five `span` glyphs, the `i`-th carrying class
`rating-star filled` when `i <= ratingValue`, else `rating-star`.
The `.rating-value` text node is modelled by the result of `parseFloat`
on its text: `none` when the text is unparsable (`NaN`), `some q` otherwise. -/

/-- `parseFloat(text) || 0`: `NaN` (unparsable text) is falsy and becomes `0`;
`0` itself is also falsy and becomes `0`, which coincides with `Option.getD`. -/
def ratingValue (parsed : Option ℚ) : ℚ :=
  parsed.getD 0

/-- The five star glyphs built by the `for (let i = 1; i <= 5; i++)` loop:
entry `i` (0-based) is `true` when the star got class `rating-star filled`,
i.e. when `i + 1 ≤ ratingValue` in the source's 1-based numbering. -/
def renderStars (r : ℚ) : List Bool :=
  (List.range 5).map (fun i => decide ((i + 1 : ℚ) ≤ r))

/-- `initRatingStars` for one rating element: clears the stars container and
fills it with `renderStars` of the parsed rating (the container-existence
guard is modelled separately in `initRatingStarsEl`). -/
def initRatingStarsRender (parsed : Option ℚ) : List Bool :=
  renderStars (ratingValue parsed)

/-- `initRatingStars` including the `if (starsContainer)` guard: when the
`.rating-stars` container is absent the element is left untouched. -/
def initRatingStarsEl (parsed : Option ℚ) (starsContainer : Option (List Bool)) :
    Option (List Bool) :=
  match starsContainer with
  | none => none
  | some _ => some (initRatingStarsRender parsed)

/-! ### Bio toggle (`toggleBioContent`, lines 422-432; `initBioSection`, 384-401) -/

/-- The mutable pieces of the bio block that `toggleBioContent` touches:
the content's inline `max-height` and the toggle button's displayed label
(`textContent` is overwritten by the subsequent `innerHTML` assignment). -/
structure BioToggleState where
  maxHeight : String
  label : String
  deriving DecidableEq, Repr

/-- `createBioToggleButton`: `textContent = 'عرض المزيد'` followed by
`innerHTML += ' ↓'` leaves the displayed label `'عرض المزيد ↓'`. -/
def createBioToggleButtonLabel : String := "عرض المزيد ↓"

/-- The state of a just-clipped bio block as produced by `initBioSection`
when `scrollHeight > 120`: a `120px` cap and the freshly created button. -/
def bioInitialState : BioToggleState :=
  { maxHeight := "120px", label := createBioToggleButtonLabel }

/-- `toggleBioContent(bioContent, button)`: branches on
`bioContent.style.maxHeight === '120px'`. -/
def toggleBioContent (s : BioToggleState) : BioToggleState :=
  if s.maxHeight = "120px" then
    { maxHeight := "none", label := "عرض أقل ↑" }
  else
    { maxHeight := "120px", label := "عرض المزيد ↓" }

/-! ### Header scroll handler (`initHeaderScroll`, lines 100-121)

The scroll listener closes over `lastScrollY` and the header element; on
each scroll event it sets the `header-scrolled` class from `scrollY > 10`
and the off-screen transform from `scrollY > lastScrollY && scrollY > 100`,
then updates `lastScrollY`. -/

/-- The two header styles the listener mutates: presence of the
`header-scrolled` class, and whether the transform is `translateY(-100%)`
(hidden) rather than `translateY(0)`. -/
structure HeaderVisState where
  scrolled : Bool
  hidden : Bool
  deriving DecidableEq, Repr

/-- One firing of the scroll listener: takes the closed-over `lastScrollY`
and the current `window.scrollY`, returns the updated header state and the
new `lastScrollY`. -/
def headerScrollStep (header : HeaderVisState) (lastScrollY scrollY : ℚ) :
    HeaderVisState × ℚ :=
  let h1 := if scrollY > 10 then { header with scrolled := true }
            else { header with scrolled := false }
  let h2 := if scrollY > lastScrollY ∧ scrollY > 100 then { h1 with hidden := true }
            else { h1 with hidden := false }
  (h2, scrollY)

/-! ### Toast creation (`showToast`, lines 207-230) -/

/-- The toast node built by `showToast`: `className` is the template
`toast ${type}` and the body holds the message and a close button. -/
structure ToastNode where
  className : String
  message : String
  deriving DecidableEq, Repr

/-- The default value of `showToast`'s second parameter (`type = 'success'`). -/
def showToastDefaultType : String := "success"

/-- The node construction inside `showToast(message, type)`. -/
def showToastNode (message : String) (type : String) : ToastNode :=
  { className := "toast " ++ type, message := message }

/-- A call `showToast(message)` that omits the severity argument: JS fills
in the declared default. -/
def showToastNodeDefault (message : String) : ToastNode :=
  showToastNode message showToastDefaultType

/-! ### Missing-element guards (`scrollToElement` lines 90-98, the
`initHeaderScroll` listener, `initBioSection` lines 384-401,
`initMobileMenu` lines 181-193, the `initEmployeeCards` click handler)

`document.querySelector` is `Option`-valued; dereferencing a `none` result
throws a `TypeError`, embedded as `Except.error`. -/

/-- An element reference carrying only its `offsetHeight`, as used for the
fixed header inside `scrollToElement`. -/
structure HeaderEl where
  offsetHeight : ℚ
  deriving DecidableEq, Repr

/-- `scrollToElement(element)`: reads
`document.querySelector('.main-header').offsetHeight` with no null guard,
so a page without `.main-header` throws; otherwise computes the scroll
target `element.getBoundingClientRect().top + window.pageYOffset - headerHeight`. -/
def scrollToElement (mainHeader : Option HeaderEl) (elementTop pageYOffset : ℚ) :
    Except String ℚ :=
  match mainHeader with
  | none => .error "TypeError: Cannot read properties of null"
  | some h => .ok (elementTop + pageYOffset - h.offsetHeight)

/-- One firing of the `initHeaderScroll` scroll listener: the closed-over
`header` is dereferenced (`header.classList.add`) with no null guard, so the
listener throws on every scroll event of a page without `.main-header`. -/
def headerScrollListener (header : Option HeaderVisState) (lastScrollY scrollY : ℚ) :
    Except String (HeaderVisState × ℚ) :=
  match header with
  | none => .error "TypeError: Cannot read properties of null"
  | some h => .ok (headerScrollStep h lastScrollY scrollY)

/-- The `.bio-content` piece of a bio block that `initBioSection` reads and
mutates: the DOM `scrollHeight` and the inline `max-height` / `overflow`
styles (absent means never set). -/
structure BioContentEl where
  scrollHeight : ℕ
  maxHeight : Option String
  overflow : Option String
  deriving DecidableEq, Repr

/-- A `.bio-section` element: its `.bio-content` child (possibly absent
from the markup) and whether a `bio-toggle` button has been appended. -/
structure BioSectionEl where
  content : Option BioContentEl
  toggleAppended : Bool
  deriving DecidableEq, Repr

/-- `initBioSection()`: a missing `.bio-section` is guarded (`if (!bioSection)
return`), but `bioSection.querySelector('.bio-content')` is dereferenced
(`bioContent.scrollHeight`) with no guard, so a `.bio-section` without a
`.bio-content` child throws. When `scrollHeight > 120` the content is capped
at `120px`, hidden overflow, and the toggle button is appended; otherwise
the block is left untouched. -/
def initBioSection (bioSection : Option BioSectionEl) :
    Except String (Option BioSectionEl) :=
  match bioSection with
  | none => .ok none
  | some sec =>
    match sec.content with
    | none => .error "TypeError: Cannot read properties of null"
    | some c =>
      if c.scrollHeight > 120 then
        .ok (some { content := some { c with maxHeight := some "120px",
                                             overflow := some "hidden" },
                    toggleAppended := true })
      else
        .ok (some sec)

/-! ### Mobile menu (`initMobileMenu` lines 181-201, `initSmoothScroll`
lines 72-88)

`document.body.classList` is embedded as a list of class tokens;
`classList.toggle` / `classList.remove` follow the DOM token-list
semantics. -/

/-- `classList.remove(tok)`: removes every occurrence of the token. -/
def classListRemove (classes : List String) (tok : String) : List String :=
  classes.filter (fun c => c ≠ tok)

/-- `classList.toggle(tok)`: removes the token when present, appends it
when absent. -/
def classListToggle (classes : List String) (tok : String) : List String :=
  if tok ∈ classes then classListRemove classes tok else classes ++ [tok]

/-- The single body class that carries the open/closed state of the
mobile menu. -/
def navOpenClass : String := "nav-open"

/-- `toggleMobileMenu()`: `document.body.classList.toggle('nav-open')`. -/
def toggleMobileMenu (bodyClasses : List String) : List String :=
  classListToggle bodyClasses navOpenClass

/-- `closeMobileMenu()`: `document.body.classList.remove('nav-open')`. -/
def closeMobileMenu (bodyClasses : List String) : List String :=
  classListRemove bodyClasses navOpenClass

/-- Whether the mobile menu is open: presence of `nav-open` on the body. -/
def menuIsOpen (bodyClasses : List String) : Bool :=
  decide (navOpenClass ∈ bodyClasses)

/-- `initMobileMenu()`: when `.menu-toggle` is absent the `if (menuToggle)`
guard skips all listener registration and the document is untouched. The
boolean records whether the toggle element was found. -/
def initMobileMenu (menuToggle : Option Unit) (bodyClasses : List String) :
    List String × Bool :=
  match menuToggle with
  | none => (bodyClasses, false)
  | some _ => (bodyClasses, true)

/-- The smooth-scroll click handler of one `a[href^="#"]` link: when the
`href` is longer than `"#"` and `document.querySelector(targetId)` finds the
target, the default jump is prevented, the mobile menu is closed and the
viewport scrolls via `scrollToElement`; otherwise nothing happens. Returns
the body classes, whether default was prevented, and the scroll command
(which itself needs `.main-header`). -/
def smoothScrollClick (href : String) (target : Option ℚ)
    (mainHeader : Option HeaderEl) (pageYOffset : ℚ) (bodyClasses : List String) :
    List String × Bool × Option (Except String ℚ) :=
  if href.length > 1 then
    match target with
    | some targetTop =>
        (closeMobileMenu bodyClasses, true,
         some (scrollToElement mainHeader targetTop pageYOffset))
    | none => (bodyClasses, false, none)
  else (bodyClasses, false, none)

/-! ### Employee cards (`initEmployeeCards` lines 445-468,
`initGridContactButtons` lines 490-501)

Click dispatch over the DOM bubbling path is embedded as a fold over the
handler chain that checks `stopPropagation` before each next handler. -/

/-- The mutable per-dispatch event state: whether `stopPropagation()` was
called, and the navigation (`window.location.href = ...`) performed so far. -/
structure ClickCtx where
  stopped : Bool
  nav : Option String
  deriving DecidableEq, Repr

/-- What `e.target.closest` sees from the card click handler: whether the
click target sits inside an `a` and whether inside a `button`. -/
structure CardClickTarget where
  closestA : Bool
  closestButton : Bool
  deriving DecidableEq, Repr

/-- The card's stored `.btn-view-profile` anchor, when present. -/
structure EmployeeCard where
  profileHref : Option String
  deriving DecidableEq, Repr

/-- The `initEmployeeCards` click handler: returns early when the target is
inside a link or button; otherwise navigates to the profile anchor's href
when that anchor exists. -/
def employeeCardClickHandler (card : EmployeeCard) (target : CardClickTarget)
    (ctx : ClickCtx) : ClickCtx :=
  if target.closestA || target.closestButton then ctx
  else
    match card.profileHref with
    | some href => { ctx with nav := some href }
    | none => ctx

/-- The `initGridContactButtons` click handler: `e.stopPropagation()` first,
then a press animation and a log (no navigation). -/
def gridContactClickHandler (ctx : ClickCtx) : ClickCtx :=
  { ctx with stopped := true }

/-- DOM event bubbling: handlers run from the target outward, and a handler
after a `stopPropagation()` call is not invoked. -/
def bubbleClick (handlers : List (ClickCtx → ClickCtx)) : ClickCtx :=
  handlers.foldl (fun c h => if c.stopped then c else h c)
    { stopped := false, nav := none }

/-- A click whose target is the contact button of a card: the button's own
handler runs first, then bubbling would reach the card's handler. -/
def contactButtonClickDispatch (card : EmployeeCard) (target : CardClickTarget) :
    ClickCtx :=
  bubbleClick [gridContactClickHandler, employeeCardClickHandler card target]

/-- A click landing directly on the card (no inner handler on the path). -/
def cardClickDispatch (card : EmployeeCard) (target : CardClickTarget) : ClickCtx :=
  bubbleClick [employeeCardClickHandler card target]

/-! ### Portfolio modal (`openPortfolioModal` lines 270-300, `closeModal`
lines 322-330)

The document is projected to its list of `portfolio-modal` nodes,
identified by creation index. `openPortfolioModal` builds one node and
appends it; the 300 ms `closeModal` timer removes that node if it is still
attached (`if (modal.parentNode)`). -/

/-- The `portfolio-modal` nodes currently attached to `document.body`,
by creation identity. -/
abbrev ModalDoc := List ℕ

/-- `openPortfolioModal`: `createModal()` then `document.body.appendChild(modal)`. -/
def openPortfolioModal (doc : ModalDoc) (modal : ℕ) : ModalDoc :=
  doc ++ [modal]

/-- The body of the 300 ms timer set by `closeModal(modal)`:
`if (modal.parentNode) { modal.remove() }` — removes that one node when it
is still attached. -/
def closeModalFinish (doc : ModalDoc) (modal : ℕ) : ModalDoc :=
  if modal ∈ doc then doc.erase modal else doc

/-- How many attached `portfolio-modal` nodes stem from creation `modal`. -/
def modalNodeCount (doc : ModalDoc) (modal : ℕ) : ℕ :=
  doc.count modal

/-! ### Timed toast lifecycle (`showToast` lines 207-230, `animateToastOut`
lines 59-66)

`setTimeout` callbacks and the user's close click are events on a
discrete-event queue; the browser fires due timers in time order, ties
broken by scheduling order. `runUntil` executes every event due by the
query time (the fuel only bounds unfolding; each run here fires at most
four events). -/

/-- Picks the queue entry with the least fire time (ties: the entry
scheduled earlier), returning it and the rest of the queue. -/
def pickEarliest {α : Type} : List (ℕ × α) → Option ((ℕ × α) × List (ℕ × α))
  | [] => none
  | e :: es =>
    match pickEarliest es with
    | none => some (e, [])
    | some (m, rest) => if e.1 ≤ m.1 then some (e, es) else some (m, e :: rest)

/-- Runs every queued event whose fire time is at most `horizon`, earliest
first; an executed event may schedule further events. -/
def runUntil {σ α : Type} (exec : ℕ → α → σ → σ × List (ℕ × α)) :
    ℕ → ℕ → σ → List (ℕ × α) → σ
  | 0, _, s, _ => s
  | fuel + 1, horizon, s, q =>
    match pickEarliest q with
    | none => s
    | some ((t, a), rest) =>
      if t ≤ horizon then
        let p := exec t a s
        runUntil exec fuel horizon p.1 (rest ++ p.2)
      else s

/-- The events acting on one toast, with time 0 the `DOMContentLoaded`
moment: the `showToast` call that creates the toast, the page-load sweep of
`initToastSystem` (its one-shot 5-second `setTimeout` animating out every
attached `.toast` node), the toast's own 5-second auto-dismiss timer, the
300 ms removal timer set by `animateToastOut`, and the user's click on the
toast's close button. -/
inductive ToastAct : Type
  | create
  | sweep
  | autoDismiss
  | animRemove
  | closeClick
  deriving DecidableEq, Repr

/-- The toast node's state: attached to the document, and whether the
slide-out animation has been started. -/
structure ToastTimedState where
  inDoc : Bool
  animatingOut : Bool
  deriving DecidableEq, Repr

/-- The `5000` of `showToast`'s auto-removal `setTimeout`. -/
def toastLifetimeMs : ℕ := 5000

/-- The `300` of `animateToastOut`'s removal `setTimeout`, matching the
0.3 s `toastSlideOut` animation. -/
def toastAnimOutMs : ℕ := 300

/-- `animateToastOut(toast)` at time `t`: starts the slide-out animation
and schedules the guarded removal 300 ms later. -/
def animateToastOut (t : ℕ) (s : ToastTimedState) :
    ToastTimedState × List (ℕ × ToastAct) :=
  ({ s with animatingOut := true }, [(t + toastAnimOutMs, .animRemove)])

/-- Event semantics for one toast. Creation appends the node
(`toastContainer.appendChild(toast)`) and starts the 5-second auto-dismiss
timer; the page-load sweep queries `document.querySelectorAll` inside its
callback, so it reaches the toast only while the node is attached; the
auto-dismiss timer runs `animateToastOut` only under its
`if (toast.parentNode)` guard; the removal timer removes the node only
under `animateToastOut`'s own `if (toast.parentNode)` guard; a close click
can only happen while the node is attached (a detached node is not
rendered), and then runs `animateToastOut`. -/
def toastExec (t : ℕ) (a : ToastAct) (s : ToastTimedState) :
    ToastTimedState × List (ℕ × ToastAct) :=
  match a with
  | .create => ({ s with inDoc := true }, [(t + toastLifetimeMs, .autoDismiss)])
  | .sweep => if s.inDoc then animateToastOut t s else (s, [])
  | .autoDismiss => if s.inDoc then animateToastOut t s else (s, [])
  | .animRemove => if s.inDoc then ({ s with inDoc := false }, []) else (s, [])
  | .closeClick => if s.inDoc then animateToastOut t s else (s, [])

/-- The events determined at page load for a toast created by a
`showToast` call at time `s` after `DOMContentLoaded`: the sweep timer of
`initToastSystem` (registered first, at load), the creating call, and the
close click at its time when the user clicks. -/
def toastInitQueue (s : ℕ) (click : Option ℕ) : List (ℕ × ToastAct) :=
  match click with
  | none => [(toastLifetimeMs, .sweep), (s, .create)]
  | some c => [(toastLifetimeMs, .sweep), (s, .create), (c, .closeClick)]

/-- The toast's state at time `t` after `DOMContentLoaded`, for the toast
created at time `s`: every due event has fired. -/
def toastStateAt (s : ℕ) (click : Option ℕ) (t : ℕ) : ToastTimedState :=
  runUntil toastExec 8 t { inDoc := false, animatingOut := false }
    (toastInitQueue s click)

/-- The time of the toast's dismiss trigger, for a toast created at `s`
and not reached by the page-load sweep: the close click when it comes
before the creation-relative 5-second lifetime, the lifetime expiry
otherwise. -/
def toastDismissTime (s : ℕ) (click : Option ℕ) : ℕ :=
  match click with
  | none => s + toastLifetimeMs
  | some c => min c (s + toastLifetimeMs)

/-! ## Theorems -/

/-- C1: for every rating element, `initRatingStars` renders exactly five
star glyphs from the parsed rating value (defaulting to 0 on unparsable
text), marking as filled exactly the stars whose 1-based position `i`
satisfies `i ≤ R`, so that exactly `min(5, max(0, ⌊R⌋))` stars are filled;
for example `R = 3.7` fills stars 1, 2, 3 and not 4. -/
theorem initRatingStars_spec (parsed : Option ℚ) :
    (initRatingStarsRender parsed).length = 5
    ∧ (∀ i : ℕ, i < 5 →
        ((initRatingStarsRender parsed).getD i false = true ↔
          (i + 1 : ℚ) ≤ ratingValue parsed))
    ∧ (initRatingStarsRender parsed).count true =
        min 5 (Int.toNat ⌊ratingValue parsed⌋)
    ∧ initRatingStarsRender (some (37 / 10)) = [true, true, true, false, false]
    ∧ initRatingStarsRender none = renderStars 0 := by
  set r := ratingValue parsed with hr
  refine ⟨rfl, ?_, ?_,
    by norm_num [initRatingStarsRender, renderStars, ratingValue, List.range_succ], rfl⟩
  · intro i hi
    interval_cases i <;>
      simp [initRatingStarsRender, renderStars, List.range_succ, ← hr]
  · have key : ∀ z : ℤ, decide ((z : ℚ) ≤ r) = decide (z ≤ ⌊r⌋) := by
      intro z
      rw [decide_eq_decide, Int.le_floor]
    have k1 : decide ((1 : ℚ) ≤ r) = decide ((1 : ℤ) ≤ ⌊r⌋) := by rw [← key]; norm_num
    have k2 : decide ((2 : ℚ) ≤ r) = decide ((2 : ℤ) ≤ ⌊r⌋) := by rw [← key]; norm_num
    have k3 : decide ((3 : ℚ) ≤ r) = decide ((3 : ℤ) ≤ ⌊r⌋) := by rw [← key]; norm_num
    have k4 : decide ((4 : ℚ) ≤ r) = decide ((4 : ℤ) ≤ ⌊r⌋) := by rw [← key]; norm_num
    have k5 : decide ((5 : ℚ) ≤ r) = decide ((5 : ℤ) ≤ ⌊r⌋) := by rw [← key]; norm_num
    simp only [initRatingStarsRender, renderStars, ← hr]
    norm_num [List.range_succ]
    rw [k1, k2, k3, k4, k5]
    rcases lt_or_ge ⌊r⌋ 1 with h | h
    · simp [show ¬ ((1:ℤ) ≤ ⌊r⌋) by omega, show ¬ ((2:ℤ) ≤ ⌊r⌋) by omega,
        show ¬ ((3:ℤ) ≤ ⌊r⌋) by omega, show ¬ ((4:ℤ) ≤ ⌊r⌋) by omega,
        show ¬ ((5:ℤ) ≤ ⌊r⌋) by omega]
      omega
    · rcases lt_or_ge ⌊r⌋ 2 with h2 | h2
      · simp [show (1:ℤ) ≤ ⌊r⌋ by omega, show ¬ ((2:ℤ) ≤ ⌊r⌋) by omega,
          show ¬ ((3:ℤ) ≤ ⌊r⌋) by omega, show ¬ ((4:ℤ) ≤ ⌊r⌋) by omega,
          show ¬ ((5:ℤ) ≤ ⌊r⌋) by omega]
        omega
      · rcases lt_or_ge ⌊r⌋ 3 with h3 | h3
        · simp [show (1:ℤ) ≤ ⌊r⌋ by omega, show (2:ℤ) ≤ ⌊r⌋ by omega,
            show ¬ ((3:ℤ) ≤ ⌊r⌋) by omega, show ¬ ((4:ℤ) ≤ ⌊r⌋) by omega,
            show ¬ ((5:ℤ) ≤ ⌊r⌋) by omega]
          omega
        · rcases lt_or_ge ⌊r⌋ 4 with h4 | h4
          · simp [show (1:ℤ) ≤ ⌊r⌋ by omega, show (2:ℤ) ≤ ⌊r⌋ by omega,
              show (3:ℤ) ≤ ⌊r⌋ by omega, show ¬ ((4:ℤ) ≤ ⌊r⌋) by omega,
              show ¬ ((5:ℤ) ≤ ⌊r⌋) by omega]
            omega
          · rcases lt_or_ge ⌊r⌋ 5 with h5 | h5
            · simp [show (1:ℤ) ≤ ⌊r⌋ by omega, show (2:ℤ) ≤ ⌊r⌋ by omega,
                show (3:ℤ) ≤ ⌊r⌋ by omega, show (4:ℤ) ≤ ⌊r⌋ by omega,
                show ¬ ((5:ℤ) ≤ ⌊r⌋) by omega]
              omega
            · simp [show (1:ℤ) ≤ ⌊r⌋ by omega, show (2:ℤ) ≤ ⌊r⌋ by omega,
                show (3:ℤ) ≤ ⌊r⌋ by omega, show (4:ℤ) ≤ ⌊r⌋ by omega,
                show (5:ℤ) ≤ ⌊r⌋ by omega]
              omega

/-- Witness for C1: concrete evaluation at the parsed rating `3.7` and
star position 3. -/
theorem initRatingStars_spec_witness :
    (2 : ℕ) < 5
    ∧ ((initRatingStarsRender (some (37 / 10))).getD 2 false = true ↔
        (2 + 1 : ℚ) ≤ ratingValue (some (37 / 10))) :=
  ⟨by decide, (initRatingStars_spec (some (37 / 10))).2.1 2 (by decide)⟩

/-- C5: a bio block clipped at load starts in the collapsed state
(`120px` cap, show-more label), and toggling its control an even number of
times returns it to exactly that state. -/
theorem toggleBioContent_even_restores (n : ℕ) :
    toggleBioContent^[2 * n] bioInitialState = bioInitialState
    ∧ bioInitialState.maxHeight = "120px"
    ∧ bioInitialState.label = createBioToggleButtonLabel := by
  refine ⟨?_, rfl, rfl⟩
  induction n with
  | zero => rfl
  | succ k ih =>
    have h2 : toggleBioContent^[2] bioInitialState = bioInitialState := by
      show toggleBioContent (toggleBioContent bioInitialState) = bioInitialState
      rfl
    rw [show 2 * (k + 1) = 2 * k + 2 by ring, Function.iterate_add_apply, h2, ih]

/-- C6: on every scroll event, the `header-scrolled` class is present
exactly when the offset exceeds 10; the header is translated off-screen
exactly when the offset both increased and exceeds 100; whenever the offset
does not increase the header is shown; and `lastScrollY` becomes the new
offset. -/
theorem initHeaderScroll_spec (header : HeaderVisState) (lastScrollY scrollY : ℚ) :
    ((headerScrollStep header lastScrollY scrollY).1.scrolled = true ↔ scrollY > 10)
    ∧ ((headerScrollStep header lastScrollY scrollY).1.hidden = true ↔
        (scrollY > lastScrollY ∧ scrollY > 100))
    ∧ (scrollY ≤ lastScrollY → (headerScrollStep header lastScrollY scrollY).1.hidden = false)
    ∧ (headerScrollStep header lastScrollY scrollY).2 = scrollY := by
  refine ⟨?_, ?_, ?_, ?_⟩ <;> simp only [headerScrollStep] <;> split_ifs <;> simp_all

/-- Witness for C6: a concrete upward scroll (50 → 30) shows the header. -/
theorem initHeaderScroll_spec_witness :
    (30 : ℚ) ≤ 50
    ∧ (headerScrollStep { scrolled := false, hidden := true } 50 30).1.hidden = false :=
  ⟨by norm_num,
   (initHeaderScroll_spec { scrolled := false, hidden := true } 50 30).2.2.1 (by norm_num)⟩

/-- C9: a bio block whose content height does not exceed 120 is left
completely unchanged by `initBioSection`: no cap, no overflow clipping, no
appended toggle control. -/
theorem initBioSection_short_unchanged (sec : BioSectionEl) (c : BioContentEl)
    (hc : sec.content = some c) (hle : c.scrollHeight ≤ 120) :
    initBioSection (some sec) = .ok (some sec) := by
  simp [initBioSection, hc, Nat.not_lt.mpr hle]

/-- Witness for C9: a bio block of content height 100 is returned as-is. -/
theorem initBioSection_short_unchanged_witness :
    ({ content := some { scrollHeight := 100, maxHeight := none, overflow := none },
       toggleAppended := false } : BioSectionEl).content =
      some { scrollHeight := 100, maxHeight := none, overflow := none }
    ∧ (100 : ℕ) ≤ 120
    ∧ initBioSection
        (some { content := some { scrollHeight := 100, maxHeight := none, overflow := none },
                toggleAppended := false }) =
      .ok (some { content := some { scrollHeight := 100, maxHeight := none, overflow := none },
                  toggleAppended := false }) :=
  ⟨rfl, by decide, initBioSection_short_unchanged _ _ rfl (by decide)⟩

/-- C10: `showToast(message)` with the severity argument omitted builds the
banner with severity class `success`, its class list being exactly
`toast success`. -/
theorem showToast_default_class (message : String) :
    (showToastNodeDefault message).className = "toast success" := rfl

/-- C2, counterexample: the claim says a feature whose element is absent is
skipped silently and never throws, naming `.main-header` (used by the
smooth-scroll and header-scroll handlers) and `.bio-content` inside a
`.bio-section` as examples — but on a page without `.main-header`,
`scrollToElement` dereferences the null query result and throws, the scroll
listener of `initHeaderScroll` throws on every scroll event, and a
`.bio-section` without `.bio-content` makes `initBioSection` throw. -/
theorem missing_main_header_throws :
    (scrollToElement none 0 0).isOk = false
    ∧ (headerScrollListener none 0 0).isOk = false
    ∧ (initBioSection (some { content := none, toggleAppended := false })).isOk = false :=
  ⟨rfl, rfl, rfl⟩

/-- C2, amended: initializers with an explicit existence guard (mobile-menu
toggle, `.bio-section` root, `.rating-stars` container, `.btn-view-profile`
anchor) skip their feature silently and never throw when the element is
absent; but `scrollToElement` and the `initHeaderScroll` listener succeed
exactly when `.main-header` exists, and `initBioSection` on an existing
`.bio-section` succeeds exactly when its `.bio-content` child exists,
throwing otherwise. -/
theorem missing_element_guards :
    (∀ classes, initMobileMenu none classes = (classes, false))
    ∧ initBioSection none = .ok none
    ∧ (∀ parsed, initRatingStarsEl parsed none = none)
    ∧ (∀ (target : CardClickTarget) (ctx : ClickCtx),
        employeeCardClickHandler { profileHref := none } target ctx = ctx)
    ∧ (∀ (mainHeader : Option HeaderEl) (elementTop pageYOffset : ℚ),
        (scrollToElement mainHeader elementTop pageYOffset).isOk = mainHeader.isSome)
    ∧ (∀ (header : Option HeaderVisState) (lastScrollY scrollY : ℚ),
        (headerScrollListener header lastScrollY scrollY).isOk = header.isSome)
    ∧ (∀ sec : BioSectionEl, (initBioSection (some sec)).isOk = sec.content.isSome) := by
  refine ⟨fun _ => rfl, rfl, fun _ => rfl, ?_, ?_, ?_, ?_⟩
  · intro target ctx
    simp [employeeCardClickHandler]
  · intro mainHeader elementTop pageYOffset
    cases mainHeader <;> rfl
  · intro header lastScrollY scrollY
    cases header <;> rfl
  · intro sec
    cases hc : sec.content with
    | none => simp [initBioSection, hc, Except.isOk, Except.toBool]
    | some c =>
      simp only [initBioSection, hc]
      split <;> rfl

/-- C3, counterexample: a toast created via `showToast` 1 second after
page load is attached at creation but is removed by the page-load sweep of
`initToastSystem` at 5.3 s after load — only 4.3 s after its creation and
with no close click — contradicting "not removed earlier than its fixed
5-second lifetime unless its close control is activated". -/
theorem toast_swept_before_lifetime :
    (toastStateAt 1000 none 1000).inDoc = true
    ∧ (toastStateAt 1000 none 5300).inDoc = false
    ∧ 5300 < 1000 + toastLifetimeMs :=
  ⟨by decide, by decide, by decide⟩

set_option maxHeartbeats 6400000 in
/-- C3, amended: for every toast created via `showToast` at or after the
5-second page-load sweep of `initToastSystem` (with any close click coming
no earlier than the creation), the toast is attached immediately after the
call, is not removed earlier than its fixed 5-second lifetime unless its
close control is activated, and after the dismiss trigger (close click or
lifetime expiry) is removed exactly at the 300 ms animation-out boundary;
the final conjunct characterises attachment completely. -/
theorem showToast_lifecycle (s : ℕ) (click : Option ℕ)
    (hs : toastLifetimeMs ≤ s) (hclick : ∀ c, click = some c → s ≤ c) :
    (toastStateAt s click s).inDoc = true
    ∧ (∀ t, s ≤ t → t < toastDismissTime s click → (toastStateAt s click t).inDoc = true)
    ∧ (∀ t, toastDismissTime s click + toastAnimOutMs ≤ t →
        (toastStateAt s click t).inDoc = false)
    ∧ (∀ t, ((toastStateAt s click t).inDoc = true ↔
        (s ≤ t ∧ t < toastDismissTime s click + toastAnimOutMs))) := by
  have hs5 : 5000 ≤ s := hs
  have key : ∀ t, ((toastStateAt s click t).inDoc = true ↔
      (s ≤ t ∧ t < toastDismissTime s click + toastAnimOutMs)) := by
    intro t
    rcases click with _ | c
    · rcases lt_or_ge t 5000 with h1 | h1
      · simp [toastStateAt, toastInitQueue, toastDismissTime, toastLifetimeMs,
          toastAnimOutMs, runUntil, pickEarliest, toastExec, animateToastOut, hs5, show ¬ (5000 ≤ t) by omega]
        omega
      · rcases lt_or_ge t s with h2 | h2
        · simp [toastStateAt, toastInitQueue, toastDismissTime, toastLifetimeMs,
          toastAnimOutMs, runUntil, pickEarliest, toastExec, animateToastOut, hs5, show 5000 ≤ t by omega, show ¬ (s ≤ t) by omega]
        · rcases lt_or_ge t (s + 5000) with h3 | h3
          · simp [toastStateAt, toastInitQueue, toastDismissTime, toastLifetimeMs,
          toastAnimOutMs, runUntil, pickEarliest, toastExec, animateToastOut, hs5, show 5000 ≤ t by omega, show s ≤ t by omega,
              show ¬ (s + 5000 ≤ t) by omega]
            omega
          · rcases lt_or_ge t (s + 5000 + 300) with h4 | h4
            · simp [toastStateAt, toastInitQueue, toastDismissTime, toastLifetimeMs,
          toastAnimOutMs, runUntil, pickEarliest, toastExec, animateToastOut, hs5, show 5000 ≤ t by omega, show s ≤ t by omega,
                show s + 5000 ≤ t by omega, show ¬ (s + 5000 + 300 ≤ t) by omega]
              omega
            · simp [toastStateAt, toastInitQueue, toastDismissTime, toastLifetimeMs,
          toastAnimOutMs, runUntil, pickEarliest, toastExec, animateToastOut, hs5, show 5000 ≤ t by omega, show s ≤ t by omega,
                show s + 5000 ≤ t by omega, show s + 5000 + 300 ≤ t by omega]
    · have hc : s ≤ c := hclick c rfl
      rcases lt_or_ge t 5000 with h1 | h1
      · simp [toastStateAt, toastInitQueue, toastDismissTime, toastLifetimeMs,
          toastAnimOutMs, runUntil, pickEarliest, toastExec, animateToastOut, hs5, hc, show ¬ (5000 ≤ t) by omega]
        omega
      · rcases lt_or_ge t s with h2 | h2
        · simp [toastStateAt, toastInitQueue, toastDismissTime, toastLifetimeMs,
          toastAnimOutMs, runUntil, pickEarliest, toastExec, animateToastOut, hs5, hc, show 5000 ≤ t by omega, show ¬ (s ≤ t) by omega]
        · rcases le_or_lt c (s + 5000) with hcy | hcy
          · -- click scheduled no later than the auto-dismiss timer
            rcases lt_or_ge t c with h3 | h3
            · simp [toastStateAt, toastInitQueue, toastDismissTime, toastLifetimeMs,
          toastAnimOutMs, runUntil, pickEarliest, toastExec, animateToastOut, hs5, hc, show 5000 ≤ t by omega, show s ≤ t by omega,
                show c ≤ s + 5000 by omega, show ¬ (c ≤ t) by omega]
              omega
            · rcases le_or_lt (s + 5000) (c + 300) with hy2 | hy2
              · rcases lt_or_ge t (s + 5000) with h4 | h4
                · simp [toastStateAt, toastInitQueue, toastDismissTime, toastLifetimeMs,
          toastAnimOutMs, runUntil, pickEarliest, toastExec, animateToastOut, hs5, hc, show 5000 ≤ t by omega, show s ≤ t by omega,
                    show c ≤ s + 5000 by omega, show c ≤ t by omega,
                    show s + 5000 ≤ c + 300 by omega, show ¬ (s + 5000 ≤ t) by omega]
                  omega
                · rcases lt_or_ge t (c + 300) with h5 | h5
                  · simp [toastStateAt, toastInitQueue, toastDismissTime, toastLifetimeMs,
          toastAnimOutMs, runUntil, pickEarliest, toastExec, animateToastOut, hs5, hc, show 5000 ≤ t by omega, show s ≤ t by omega,
                      show c ≤ s + 5000 by omega, show c ≤ t by omega,
                      show s + 5000 ≤ c + 300 by omega, show s + 5000 ≤ t by omega,
                      show c + 300 ≤ s + 5000 + 300 by omega, show ¬ (c + 300 ≤ t) by omega]
                    omega
                  · rcases lt_or_ge t (s + 5000 + 300) with h6 | h6
                    · simp [toastStateAt, toastInitQueue, toastDismissTime, toastLifetimeMs,
          toastAnimOutMs, runUntil, pickEarliest, toastExec, animateToastOut, hs5, hc, show 5000 ≤ t by omega, show s ≤ t by omega,
                        show c ≤ s + 5000 by omega, show c ≤ t by omega,
                        show s + 5000 ≤ c + 300 by omega, show s + 5000 ≤ t by omega,
                        show c + 300 ≤ s + 5000 + 300 by omega, show c + 300 ≤ t by omega,
                        show ¬ (s + 5000 + 300 ≤ t) by omega]
                    · simp [toastStateAt, toastInitQueue, toastDismissTime, toastLifetimeMs,
          toastAnimOutMs, runUntil, pickEarliest, toastExec, animateToastOut, hs5, hc, show 5000 ≤ t by omega, show s ≤ t by omega,
                        show c ≤ s + 5000 by omega, show c ≤ t by omega,
                        show s + 5000 ≤ c + 300 by omega, show s + 5000 ≤ t by omega,
                        show c + 300 ≤ s + 5000 + 300 by omega, show c + 300 ≤ t by omega,
                        show s + 5000 + 300 ≤ t by omega]
              · rcases lt_or_ge t (c + 300) with h4 | h4
                · simp [toastStateAt, toastInitQueue, toastDismissTime, toastLifetimeMs,
          toastAnimOutMs, runUntil, pickEarliest, toastExec, animateToastOut, hs5, hc, show 5000 ≤ t by omega, show s ≤ t by omega,
                    show c ≤ s + 5000 by omega, show c ≤ t by omega,
                    show ¬ (s + 5000 ≤ c + 300) by omega, show ¬ (c + 300 ≤ t) by omega]
                  omega
                · rcases lt_or_ge t (s + 5000) with h5 | h5
                  · simp [toastStateAt, toastInitQueue, toastDismissTime, toastLifetimeMs,
          toastAnimOutMs, runUntil, pickEarliest, toastExec, animateToastOut, hs5, hc, show 5000 ≤ t by omega, show s ≤ t by omega,
                      show c ≤ s + 5000 by omega, show c ≤ t by omega,
                      show ¬ (s + 5000 ≤ c + 300) by omega, show c + 300 ≤ t by omega,
                      show ¬ (s + 5000 ≤ t) by omega]
                  · simp [toastStateAt, toastInitQueue, toastDismissTime, toastLifetimeMs,
          toastAnimOutMs, runUntil, pickEarliest, toastExec, animateToastOut, hs5, hc, show 5000 ≤ t by omega, show s ≤ t by omega,
                      show c ≤ s + 5000 by omega, show c ≤ t by omega,
                      show ¬ (s + 5000 ≤ c + 300) by omega, show c + 300 ≤ t by omega,
                      show s + 5000 ≤ t by omega]
          · -- the auto-dismiss timer fires before the click
            rcases lt_or_ge t (s + 5000) with h3 | h3
            · simp [toastStateAt, toastInitQueue, toastDismissTime, toastLifetimeMs,
          toastAnimOutMs, runUntil, pickEarliest, toastExec, animateToastOut, hs5, hc, show 5000 ≤ t by omega, show s ≤ t by omega,
                show ¬ (c ≤ s + 5000) by omega, show ¬ (s + 5000 ≤ t) by omega]
              omega
            · rcases le_or_lt c (s + 5000 + 300) with hcz | hcz
              · rcases lt_or_ge t c with h4 | h4
                · simp [toastStateAt, toastInitQueue, toastDismissTime, toastLifetimeMs,
          toastAnimOutMs, runUntil, pickEarliest, toastExec, animateToastOut, hs5, hc, show 5000 ≤ t by omega, show s ≤ t by omega,
                    show ¬ (c ≤ s + 5000) by omega, show s + 5000 ≤ t by omega,
                    show c ≤ s + 5000 + 300 by omega, show ¬ (c ≤ t) by omega]
                  omega
                · rcases lt_or_ge t (s + 5000 + 300) with h5 | h5
                  · simp [toastStateAt, toastInitQueue, toastDismissTime, toastLifetimeMs,
          toastAnimOutMs, runUntil, pickEarliest, toastExec, animateToastOut, hs5, hc, show 5000 ≤ t by omega, show s ≤ t by omega,
                      show ¬ (c ≤ s + 5000) by omega, show s + 5000 ≤ t by omega,
                      show c ≤ s + 5000 + 300 by omega, show c ≤ t by omega,
                      show s + 5000 + 300 ≤ c + 300 by omega,
                      show ¬ (s + 5000 + 300 ≤ t) by omega]
                    omega
                  · rcases lt_or_ge t (c + 300) with h6 | h6
                    · simp [toastStateAt, toastInitQueue, toastDismissTime, toastLifetimeMs,
          toastAnimOutMs, runUntil, pickEarliest, toastExec, animateToastOut, hs5, hc, show 5000 ≤ t by omega, show s ≤ t by omega,
                        show ¬ (c ≤ s + 5000) by omega, show s + 5000 ≤ t by omega,
                        show c ≤ s + 5000 + 300 by omega, show c ≤ t by omega,
                        show s + 5000 + 300 ≤ c + 300 by omega,
                        show s + 5000 + 300 ≤ t by omega, show ¬ (c + 300 ≤ t) by omega]
                      omega
                    · simp [toastStateAt, toastInitQueue, toastDismissTime, toastLifetimeMs,
          toastAnimOutMs, runUntil, pickEarliest, toastExec, animateToastOut, hs5, hc, show 5000 ≤ t by omega, show s ≤ t by omega,
                        show ¬ (c ≤ s + 5000) by omega, show s + 5000 ≤ t by omega,
                        show c ≤ s + 5000 + 300 by omega, show c ≤ t by omega,
                        show s + 5000 + 300 ≤ c + 300 by omega,
                        show s + 5000 + 300 ≤ t by omega, show c + 300 ≤ t by omega]
                      omega
              · rcases lt_or_ge t (s + 5000 + 300) with h4 | h4
                · simp [toastStateAt, toastInitQueue, toastDismissTime, toastLifetimeMs,
          toastAnimOutMs, runUntil, pickEarliest, toastExec, animateToastOut, hs5, hc, show 5000 ≤ t by omega, show s ≤ t by omega,
                    show ¬ (c ≤ s + 5000) by omega, show s + 5000 ≤ t by omega,
                    show ¬ (c ≤ s + 5000 + 300) by omega,
                    show ¬ (s + 5000 + 300 ≤ t) by omega]
                  omega
                · rcases lt_or_ge t c with h5 | h5
                  · simp [toastStateAt, toastInitQueue, toastDismissTime, toastLifetimeMs,
          toastAnimOutMs, runUntil, pickEarliest, toastExec, animateToastOut, hs5, hc, show 5000 ≤ t by omega, show s ≤ t by omega,
                      show ¬ (c ≤ s + 5000) by omega, show s + 5000 ≤ t by omega,
                      show ¬ (c ≤ s + 5000 + 300) by omega,
                      show s + 5000 + 300 ≤ t by omega, show ¬ (c ≤ t) by omega]
                    omega
                  · simp [toastStateAt, toastInitQueue, toastDismissTime, toastLifetimeMs,
          toastAnimOutMs, runUntil, pickEarliest, toastExec, animateToastOut, hs5, hc, show 5000 ≤ t by omega, show s ≤ t by omega,
                      show ¬ (c ≤ s + 5000) by omega, show s + 5000 ≤ t by omega,
                      show ¬ (c ≤ s + 5000 + 300) by omega,
                      show s + 5000 + 300 ≤ t by omega, show c ≤ t by omega]
                    omega
  refine ⟨?_, ?_, ?_, key⟩
  · exact (key s).mpr ⟨le_refl s, by
      rcases click with _ | c
      · simp only [toastDismissTime, toastLifetimeMs, toastAnimOutMs]
        omega
      · have hc : s ≤ c := hclick c rfl
        simp only [toastDismissTime, toastLifetimeMs, toastAnimOutMs]
        omega⟩
  · intro t hst ht
    exact (key t).mpr ⟨hst, by omega⟩
  · intro t ht
    cases hb : (toastStateAt s click t).inDoc with
    | false => rfl
    | true => exact absurd ((key t).mp hb).2 (by omega)


/-- Witness for C3 (amended): a toast created 6 s after load with a close
click at 7 s is attached at 6 s and 6.5 s and detached at 7.3 s. -/
theorem showToast_lifecycle_witness :
    toastLifetimeMs ≤ 6000
    ∧ (toastStateAt 6000 (some 7000) 6000).inDoc = true
    ∧ ((6000 : ℕ) ≤ 6500 ∧ 6500 < toastDismissTime 6000 (some 7000)
        ∧ (toastStateAt 6000 (some 7000) 6500).inDoc = true)
    ∧ (toastDismissTime 6000 (some 7000) + toastAnimOutMs ≤ 7300
        ∧ (toastStateAt 6000 (some 7000) 7300).inDoc = false) :=
  ⟨by decide,
   (showToast_lifecycle 6000 (some 7000) (by decide)
     (fun c h => by cases h; decide)).1,
   ⟨by decide, by decide,
    (showToast_lifecycle 6000 (some 7000) (by decide)
      (fun c h => by cases h; decide)).2.1 6500 (by decide) (by decide)⟩,
   ⟨by decide,
    (showToast_lifecycle 6000 (some 7000) (by decide)
      (fun c h => by cases h; decide)).2.2.1 7300 (by decide)⟩⟩

/-- C4: opening the portfolio modal and letting a close (backdrop or
close-button) finish its 300 ms removal timer leaves zero modal nodes in
the document, and doing the whole cycle a second time again leaves zero;
at every stage each created modal has at most one attached node. -/
theorem portfolio_modal_open_close_twice (m1 m2 : ℕ) :
    closeModalFinish (openPortfolioModal [] m1) m1 = []
    ∧ closeModalFinish
        (openPortfolioModal (closeModalFinish (openPortfolioModal [] m1) m1) m2) m2 = []
    ∧ (∀ m, modalNodeCount (openPortfolioModal [] m1) m ≤ 1)
    ∧ (∀ m, modalNodeCount
        (openPortfolioModal (closeModalFinish (openPortfolioModal [] m1) m1) m2) m ≤ 1) := by
  have h1 : closeModalFinish (openPortfolioModal [] m1) m1 = [] := by
    simp [closeModalFinish, openPortfolioModal]
  have hcount : ∀ x m : ℕ, modalNodeCount (openPortfolioModal [] x) m ≤ 1 := by
    intro x m
    by_cases hm : m = x <;> simp [modalNodeCount, openPortfolioModal, hm]
  refine ⟨h1, ?_, hcount m1, ?_⟩
  · rw [h1]
    simp [closeModalFinish, openPortfolioModal]
  · rw [h1]
    exact hcount m2

/-- C7: a click on an employee card whose target is outside any embedded
link or button navigates to the card's stored `.btn-view-profile` URL,
and a click on the card's contact button stops propagation, so the card's
navigation handler never runs and no navigation happens. -/
theorem employeeCards_click_spec :
    (∀ (card : EmployeeCard) (target : CardClickTarget) (url : String),
        target.closestA = false → target.closestButton = false →
        card.profileHref = some url →
        (cardClickDispatch card target).nav = some url)
    ∧ (∀ (card : EmployeeCard) (target : CardClickTarget),
        (contactButtonClickDispatch card target).nav = none) := by
  constructor
  · intro card target url ha hb hp
    simp [cardClickDispatch, bubbleClick, employeeCardClickHandler, ha, hb, hp]
  · intro card target
    simp [contactButtonClickDispatch, bubbleClick, gridContactClickHandler]

/-- Witness for C7: a card with profile URL `/employee/7/` clicked outside
any embedded link or button navigates there. -/
theorem employeeCards_click_spec_witness :
    ({ closestA := false, closestButton := false } : CardClickTarget).closestA = false
    ∧ ({ closestA := false, closestButton := false } : CardClickTarget).closestButton = false
    ∧ ({ profileHref := some "/employee/7/" } : EmployeeCard).profileHref = some "/employee/7/"
    ∧ (cardClickDispatch { profileHref := some "/employee/7/" }
        { closestA := false, closestButton := false }).nav = some "/employee/7/" :=
  ⟨rfl, rfl, rfl, employeeCards_click_spec.1 _ _ _ rfl rfl rfl⟩

/-- C8: the mobile menu's state is exactly the presence of the single
`nav-open` class on the body (toggling or closing touches no other class);
activating the toggle while open closes it, clicking a nav link closes it,
and a smooth-scroll click on an anchor link with an existing target closes
it. -/
theorem initMobileMenu_spec :
    (∀ classes, menuIsOpen classes = true → menuIsOpen (toggleMobileMenu classes) = false)
    ∧ (∀ classes, menuIsOpen classes = false → menuIsOpen (toggleMobileMenu classes) = true)
    ∧ (∀ classes, menuIsOpen (closeMobileMenu classes) = false)
    ∧ (∀ (href : String) (targetTop : ℚ) (mainHeader : Option HeaderEl)
        (pageYOffset : ℚ) (classes : List String), href.length > 1 →
        menuIsOpen (smoothScrollClick href (some targetTop) mainHeader
          pageYOffset classes).1 = false)
    ∧ (∀ (classes : List String) (c : String), c ≠ navOpenClass →
        ((c ∈ toggleMobileMenu classes ↔ c ∈ classes)
          ∧ (c ∈ closeMobileMenu classes ↔ c ∈ classes))) := by
  have hclose : ∀ classes, menuIsOpen (closeMobileMenu classes) = false := by
    intro classes
    simp [menuIsOpen, closeMobileMenu, classListRemove, List.mem_filter]
  refine ⟨?_, ?_, hclose, ?_, ?_⟩
  · intro classes h
    simp only [menuIsOpen, decide_eq_true_eq] at h
    simp [menuIsOpen, toggleMobileMenu, classListToggle, h, classListRemove,
      List.mem_filter]
  · intro classes h
    simp only [menuIsOpen, decide_eq_false_iff_not] at h
    simp [menuIsOpen, toggleMobileMenu, classListToggle, h]
  · intro href targetTop mainHeader pageYOffset classes hlen
    simp only [smoothScrollClick, if_pos hlen]
    exact hclose classes
  · intro classes c hc
    constructor
    · simp only [toggleMobileMenu, classListToggle]
      split <;> simp [classListRemove, List.mem_filter, List.mem_append, hc]
    · simp [closeMobileMenu, classListRemove, List.mem_filter, hc]

/-- Witness for C8: with the menu open, toggling closes it, and a
smooth-scroll click on `#services` with an existing target closes it. -/
theorem initMobileMenu_spec_witness :
    menuIsOpen [navOpenClass] = true
    ∧ menuIsOpen (toggleMobileMenu [navOpenClass]) = false
    ∧ ("#services" : String).length > 1
    ∧ menuIsOpen (smoothScrollClick "#services" (some 500)
        (some { offsetHeight := 64 }) 0 [navOpenClass]).1 = false :=
  ⟨by simp [menuIsOpen, navOpenClass],
   initMobileMenu_spec.1 [navOpenClass] (by simp [menuIsOpen, navOpenClass]),
   by decide,
   initMobileMenu_spec.2.2.2.1 "#services" 500 (some { offsetHeight := 64 }) 0
     [navOpenClass] (by decide)⟩

end AppNew
